import Mathlib

/-!
Verification of the film-search-bot repository.

Shallow embedding of the candidate retrieval-and-ranking pipeline
(src/movie_search.py, src/utils.py, src/config.py, src/cache.py) and of the
session state machine (src/handlers.py).  Network and collaborator calls
(TMDb, Mem0 memory store, the NL agent, the Telegram delivery layer) are
modelled as environment oracles; pure Python code is translated function by
function.  Machine integers are Nat/Int, Python floats that only ever hold
decimal literals and sums of them (ratings, popularity, scores) are Rat.
-/

set_option maxHeartbeats 1000000
set_option maxRecDepth 100000

attribute [local semireducible] Rat.add Rat.mul Rat.sub Rat.inv Rat.ofScientific

namespace FilmBot

/-! ### Python semantics helpers (str methods, int(), regex character classes) -/

/-- Python whitespace for str.strip / str.split / the regex class backslash-s
(ASCII subset; the repository only handles ASCII queries and paths). -/
def pyIsSpace (c : Char) : Bool :=
  c = ' ' || c = '\t' || c = '\n' || c = '\r' || c = '\x0b' || c = '\x0c'

/-- str.strip() on a char list. -/
def pyStripL (cs : List Char) : List Char :=
  ((cs.dropWhile pyIsSpace).reverse.dropWhile pyIsSpace).reverse

/-- str.strip(). -/
def pyStrip (s : String) : String := String.mk (pyStripL s.toList)

/-- str.lower() (ASCII). -/
def pyLower (s : String) : String := String.mk (s.toList.map Char.toLower)

def pySplitAux : List Char → List Char → List String
  | acc, [] => if acc.isEmpty then [] else [String.mk acc.reverse]
  | acc, c :: cs =>
    if pyIsSpace c then
      if acc.isEmpty then pySplitAux [] cs
      else String.mk acc.reverse :: pySplitAux [] cs
    else pySplitAux (c :: acc) cs

/-- str.split() with no argument: split on whitespace runs, dropping empties. -/
def pySplit (s : String) : List String := pySplitAux [] s.toList

/-- " ".join(ws). -/
def joinSpace : List String → String
  | [] => ""
  | [w] => w
  | w :: ws => w ++ " " ++ joinSpace ws

/-- List-prefix test on characters. -/
def isPrefixL : List Char → List Char → Bool
  | [], _ => true
  | _ :: _, [] => false
  | a :: as, b :: bs => a = b && isPrefixL as bs

/-- Substring test on characters (Python `pat in s`; the empty pattern is in
every string). -/
def isInfixL (pat : List Char) : List Char → Bool
  | [] => isPrefixL pat []
  | c :: cs => isPrefixL pat (c :: cs) || isInfixL pat cs

/-- Python `pat in s` for strings. -/
def substrB (pat s : String) : Bool := isInfixL pat.toList s.toList

/-- Order-preserving first-occurrence dedup (dict.fromkeys / set iteration
where only membership counts). -/
def pyDedupAux [BEq α] : List α → List α → List α
  | _, [] => []
  | seen, x :: xs =>
    if seen.contains x then pyDedupAux seen xs else x :: pyDedupAux (x :: seen) xs

def pyDedup [BEq α] (l : List α) : List α := pyDedupAux [] l

def pyTitleAux : Bool → List Char → List Char
  | _, [] => []
  | prevAlpha, c :: cs =>
    if c.isAlpha then
      (if prevAlpha then c.toLower else c.toUpper) :: pyTitleAux true cs
    else c :: pyTitleAux false cs

/-- str.title() (ASCII): uppercase the first letter of each alphabetic run,
lowercase the rest. -/
def pyTitle (s : String) : String := String.mk (pyTitleAux false s.toList)

def digitsCore : Nat → List Char → Option Nat
  | acc, [] => some acc
  | acc, '_' :: c :: cs =>
    if c.isDigit then digitsCore (acc * 10 + (c.toNat - 48)) cs else none
  | _, ['_'] => none
  | acc, c :: cs =>
    if c.isDigit then digitsCore (acc * 10 + (c.toNat - 48)) cs else none

/-- Decimal digit sequence with Python underscore grouping: digit (`_`? digit)*. -/
def digitsVal : List Char → Option Nat
  | [] => none
  | c :: cs => if c.isDigit then digitsCore (c.toNat - 48) cs else none

/-- Python int(str): surrounding whitespace stripped, optional sign, decimal
digits with optional single underscores between digits; anything else raises
ValueError, modelled as none. -/
def pyInt (s : String) : Option Int :=
  match pyStripL s.toList with
  | '+' :: rest => (digitsVal rest).map (fun n => (n : Int))
  | '-' :: rest => (digitsVal rest).map (fun n => -(n : Int))
  | t => (digitsVal t).map (fun n => (n : Int))

def splitOnceAux (c : Char) : List Char → Option (List Char × List Char)
  | [] => none
  | x :: xs =>
    if x = c then some ([], xs)
    else (splitOnceAux c xs).map (fun p => (x :: p.1, p.2))

/-- Python s.split(c, 1) when the separator occurs (two parts); none when the
separator is absent (one part). -/
def pySplitOnce (s : String) (c : Char) : Option (String × String) :=
  (splitOnceAux c s.toList).map (fun p => (String.mk p.1, String.mk p.2))

/-- First character uppercase test (`w[0].isupper()`; false on empty). -/
def headIsUpper (w : String) : Bool :=
  match w.toList with
  | c :: _ => c.isUpper
  | [] => false

/-- Stable descending sort: Python list.sort(key=…, reverse=True).  `gt a b`
says a strictly precedes b under the key.  Equal keys keep original order. -/
def insertByGt (gt : α → α → Bool) (x : α) : List α → List α
  | [] => [x]
  | y :: ys => if gt y x then y :: insertByGt gt x ys else x :: y :: ys

def sortByGt (gt : α → α → Bool) : List α → List α
  | [] => []
  | x :: xs => insertByGt gt x (sortByGt gt xs)

/-! ### src/config.py -/

/-- GENRE_MAP in dict insertion order (src/config.py lines 40-62). -/
def GENRE_MAP : List (String × Int) :=
  [("detective", 80), ("crime", 80), ("mystery", 9648), ("thriller", 53),
   ("horror", 27), ("comedy", 35), ("action", 28), ("romance", 10749),
   ("drama", 18), ("sci-fi", 878), ("science fiction", 878), ("fantasy", 14),
   ("christmas", 10751), ("xmas", 10751), ("holiday", 10751), ("noir", 80),
   ("western", 37), ("adventure", 12), ("war", 10752), ("animation", 16),
   ("documentary", 99)]

def MIN_RATING : Rat := 7.0
def MIN_VOTE_COUNT : Int := 500
def MIN_RATING_FALLBACK : Rat := 6.5
def MIN_VOTE_COUNT_FALLBACK : Int := 300
def MAX_CACHE_SIZE : Nat := 100
def TMDB_IMAGE_BASE_URL : String := "https://image.tmdb.org/t/p/w500"

/-! ### src/utils.py : validate_and_build_poster_url -/

/-- Character class of the poster-path regex body: letters, digits,
underscore, dash, slash. -/
def posterBodyChar (c : Char) : Bool :=
  c.isAlpha || c.isDigit || c = '_' || c = '-' || c = '/'

def lcList (cs : List Char) : List Char := cs.map Char.toLower

/-- Allowed extensions (already lowercased for the IGNORECASE comparison). -/
def posterExts : List (List Char) :=
  ["jpg".toList, "jpeg".toList, "png".toList, "webp".toList]

/-- re.match of the anchored poster-path pattern: a slash, then one or more
body-class characters, then a dot and one of the four extensions,
case-insensitively, with nothing after.  The body class excludes the dot,
so a match has exactly one dot, separating a non-empty body from the
extension. -/
def matchPosterPath (cs : List Char) : Bool :=
  match cs with
  | '/' :: rest =>
    let body := rest.takeWhile (fun c => c ≠ '.')
    (decide (body ≠ [])) && body.all posterBodyChar &&
      (match rest.drop body.length with
       | '.' :: ext => posterExts.contains (lcList ext)
       | _ => false)
  | _ => false

/-- re.match of the final URL pattern: the literal TMDb prefix up to the size
marker w, then one or more digits, then a poster path; case-insensitive, so
everything is compared lowercased (digits and the path class are unaffected). -/
def matchPosterUrl (s : String) : Bool :=
  let cs := lcList s.toList
  let pre := "https://image.tmdb.org/t/p/w".toList
  if isPrefixL pre cs then
    let rest := cs.drop pre.length
    let ds := rest.takeWhile Char.isDigit
    (decide (ds ≠ [])) && matchPosterPath (rest.drop ds.length)
  else false

/-- The suspicious substring patterns of src/utils.py lines 31-34 (all the
regexes there are literal substrings). -/
def suspiciousPats : List String :=
  ["http", "https", "<script", "javascript", "data:", ".com", ".org", ".net", "www."]

/-- src/utils.py lines 9-50.  Note: a path that does not start with "/" is not
rejected; "/" is prepended and validation continues on the normalized path. -/
def validate_and_build_poster_url (posterPath : String) : String :=
  if posterPath = "" then ""
  else
    let p := pyStrip posterPath
    if p = "" ∨ p.length < 5 then ""
    else
      let p := if isPrefixL ['/'] p.toList then p else "/" ++ p
      if ¬ matchPosterPath p.toList then ""
      else if suspiciousPats.any (fun pat => substrB pat (pyLower p)) then ""
      else
        let posterUrl := TMDB_IMAGE_BASE_URL ++ p
        if ¬ isPrefixL "https://image.tmdb.org/t/p/w".toList posterUrl.toList then ""
        else if ¬ matchPosterUrl posterUrl then ""
        else posterUrl

/-! ### Data model -/

/-- A raw candidate dict as returned by the catalog API (the fields the core
reads; absent keys are modelled by their Python get-defaults, with id 0
standing for a missing/falsy id). -/
structure Candidate where
  id : Int
  title : String
  overview : String
  releaseDate : String
  voteAverage : Rat
  voteCount : Int
  popularity : Rat
  posterPath : String
deriving Repr, DecidableEq, Inhabited

/-- An output movie dict (the shape built at src/movie_search.py lines 418-427
and by the handlers; queue entries built at lines 434-442 lack the genres and
runtime keys, modelled as [] and 0). -/
structure MovieOut where
  id : Int
  title : String
  rating : Rat
  posterUrl : String
  trailerUrl : String
  overview : String
  genres : List String
  runtime : Int
deriving Repr, DecidableEq, Inhabited

/-- A movie-details record fetched from the catalog (tmdb_client
fetch_poster_and_verify_movie's verified JSON; genres already projected to
their names as the callers do). -/
structure Details where
  title : String
  voteAverage : Rat
  voteCount : Int
  overview : String
  genres : List String
  runtime : Int
deriving Repr, DecidableEq, Inhabited

/-- A person search hit (only the id is read). -/
structure Person where
  id : Int
deriving Repr, DecidableEq, Inhabited

/-! ### src/cache.py -/

/-- The movie cache: a Python dict is insertion-ordered, modelled as an
association list with unique keys; new keys append at the end, updates keep
position, next(iter(d)) is the head key. -/
abbrev CacheState := List (Int × MovieOut)

def cacheKeys (c : CacheState) : List Int := c.map (fun p => p.1)

/-- dict.__setitem__ : update in place when the key exists, else append. -/
def dictSet (c : CacheState) (k : Int) (v : MovieOut) : CacheState :=
  if c.any (fun p => p.1 == k) then
    c.map (fun p => if p.1 == k then (k, v) else p)
  else c ++ [(k, v)]

/-- src/cache.py lines 27-33: insert, then if the size exceeds
MAX_CACHE_SIZE delete the oldest-inserted key (the first key of the dict). -/
def set_cached_movie (c : CacheState) (k : Int) (v : MovieOut) : CacheState :=
  let c1 := dictSet c k v
  if MAX_CACHE_SIZE < c1.length then
    match c1 with
    | [] => c1
    | p :: _ => c1.eraseP (fun q => q.1 == p.1)
  else c1

/-! ### src/movie_search.py : quality filter -/

/-- parse of int(release_date.split("-")[0]); none models the ValueError
branch (empty or non-numeric prefix), in which case the caller skips the
year-based rule. -/
def parseYearPy (releaseDate : String) : Option Int :=
  pyInt (String.mk (releaseDate.toList.takeWhile (fun c => c ≠ '-')))

/-- The keep-condition of the first loop of filter_by_quality
(src/movie_search.py lines 190-203): primary thresholds, and for dated
pre-2010 candidates on non-holiday queries the additional
rating ≥ 8.5 AND vote_count ≥ 10000 requirement (a candidate is skipped when
rating < 8.5 OR vote_count < 10000). -/
def primaryKeep (r : Candidate) (isChristmas : Bool) : Bool :=
  if MIN_RATING ≤ r.voteAverage ∧ MIN_VOTE_COUNT ≤ r.voteCount then
    if r.releaseDate ≠ "" ∧ isChristmas = false then
      match parseYearPy r.releaseDate with
      | some y => decide (¬ (y < 2010 ∧ (r.voteAverage < 8.5 ∨ r.voteCount < 10000)))
      | none => true
    else true
  else false

/-- The relaxed fallback tier (lines 209-213). -/
def relaxedKeep (r : Candidate) : Bool :=
  decide (MIN_RATING_FALLBACK ≤ r.voteAverage) && decide (MIN_VOTE_COUNT_FALLBACK ≤ r.voteCount)

/-- The primary-tier list rated_results built by the first loop of
filter_by_quality. -/
def primaryTier (results : List Candidate) (isChristmas : Bool) : List Candidate :=
  results.filter (fun r => primaryKeep r isChristmas)

/-- src/movie_search.py lines 187-215: the primary-tier list when it is
non-empty, else the relaxed-tier list. -/
def filter_by_quality (results : List Candidate) (isChristmas : Bool) : List Candidate :=
  if primaryTier results isChristmas ≠ [] then primaryTier results isChristmas
  else results.filter relaxedKeep

/-! ### src/movie_search.py : query classification

The regexes of is_actor_query and extract_actor_name are fixed patterns;
each is translated to a hand matcher with the same semantics.  All of them
run under re.IGNORECASE, so matching is done on the lowercased text (the only
use of a captured group is passed through .strip() and .title(), both of
which are case-insensitive in effect).  Wherever two adjacent regex pieces
use disjoint character classes (letters versus whitespace), greedy matching
needs no backtracking and is implemented directly. -/

/-- Length of the leading alphabetic run. -/
def letterRun (cs : List Char) : Nat := (cs.takeWhile Char.isAlpha).length

/-- Length of the leading whitespace run. -/
def wsRun (cs : List Char) : Nat := (cs.takeWhile pyIsSpace).length

/-- re.search: does p match at some position of the text. -/
def scanB (p : List Char → Bool) : List Char → Bool
  | [] => p []
  | c :: cs => p (c :: cs) || scanB p cs

/-- re.search returning the first (leftmost) successful position's result. -/
def scanO (p : List Char → Option α) : List Char → Option α
  | [] => p []
  | c :: cs =>
    match p (c :: cs) with
    | some r => some r
    | none => scanO p cs

/-- is_actor_query pattern 1 at a fixed position (IGNORECASE): "film",
optional "s", whitespace, then (an optional with/wth/starring keyword and)
at least two letters.  Since the keywords themselves begin with two letters,
the optional-keyword alternative adds nothing to match existence. -/
def iaqP1At (cs : List Char) : Bool :=
  match cs with
  | 'f' :: 'i' :: 'l' :: 'm' :: rest =>
    let rest := match rest with | 's' :: r => r | _ => rest
    let w := wsRun rest
    decide (1 ≤ w) && decide (2 ≤ letterRun (rest.drop w))
  | _ => false

/-- is_actor_query patterns 2 and 3 at a fixed position: a run of at least
two letters, whitespace, another such run, whitespace, then the literal
keyword ("film" or "movie"; the regex trailing s? does not affect
existence). -/
def iaqPairAt (kw : List Char) (cs : List Char) : Bool :=
  let r1 := letterRun cs
  if r1 < 2 then false
  else
    let cs1 := cs.drop r1
    let w1 := wsRun cs1
    if w1 < 1 then false
    else
      let cs2 := cs1.drop w1
      let r2 := letterRun cs2
      if r2 < 2 then false
      else
        let cs3 := cs2.drop r2
        let w2 := wsRun cs3
        if w2 < 1 then false
        else isPrefixL kw (cs3.drop w2)

/-- src/movie_search.py lines 126-153. -/
def is_actor_query (query : String) : Bool :=
  let ql := pyLower query
  let qlc := ql.toList
  let hasActorKeyword :=
    ["with", "wth", "starring", "featuring", "actor", "actress", "by"].any
      (fun kw => substrB kw ql)
  let hasActorNamePattern :=
    scanB iaqP1At qlc || scanB (iaqPairAt "film".toList) qlc ||
      scanB (iaqPairAt "movie".toList) qlc
  let hasKnownActor :=
    ["pitt", "statham", "stathem", "hanks", "dicaprio", "cruise", "damon",
     "affleck", "smith", "reeves", "jolie", "depp", "bale", "hiddleston"].any
      (fun n => substrB n ql)
  let filmsOrMovies := substrB "films" ql || substrB "movies" ql
  let capWordsCount :=
    ((pySplit query).filter
      (fun w => (!w.isEmpty) && headIsUpper w && decide (3 < w.length))).length
  if filmsOrMovies && decide (1 ≤ capWordsCount) && hasActorKeyword then true
  else hasActorKeyword || (filmsOrMovies && (hasActorNamePattern || hasKnownActor))

/-! Name extraction (src/movie_search.py lines 72-123). -/

/-- The known-actor table in dict insertion order. -/
def knownActors : List (String × String) :=
  [("statham", "Jason Statham"), ("brad pitt", "Brad Pitt"),
   ("brad pit", "Brad Pitt"), ("tom hanks", "Tom Hanks"),
   ("dicaprio", "Leonardo DiCaprio"), ("leonardo", "Leonardo DiCaprio")]

/-- The capture class of patterns 1 and 2: letters and whitespace. -/
def captureClass (c : Char) : Bool := c.isAlpha || pyIsSpace c

/-- Non-greedy capture: the least k ≥ 1 such that the first k characters are
in the capture class and the tail pattern matches right after them. -/
def lazyCaptureAux (tail : List Char → Bool) : List Char → List Char → Option (List Char)
  | _, [] => none
  | acc, c :: cs =>
    if captureClass c then
      if tail cs then some (acc ++ [c])
      else lazyCaptureAux tail (acc ++ [c]) cs
    else none

def lazyCapture (tail : List Char → Bool) (cs : List Char) : Option (List Char) :=
  lazyCaptureAux tail [] cs

/-- Tail piece of extract pattern 1 after "as": whitespace, "a" with optional
"n", whitespace, "actor". -/
def asActorTail (cs : List Char) : Bool :=
  let w := wsRun cs
  decide (1 ≤ w) &&
    (match cs.drop w with
     | 'a' :: rest =>
       (match rest with
        | 'n' :: rest2 =>
          let w2 := wsRun rest2
          decide (1 ≤ w2) && isPrefixL "actor".toList (rest2.drop w2)
        | _ => false)
       ||
       (let w2 := wsRun rest
        decide (1 ≤ w2) && isPrefixL "actor".toList (rest.drop w2))
     | _ => false)

/-- End-of-capture alternation of extract pattern 1: whitespace "as a(n)
actor", or whitespace "actor", or end of string, or a films/movies/for
literal. -/
def paTail (cs : List Char) : Bool :=
  (let w := wsRun cs
   decide (1 ≤ w) &&
     ((isPrefixL "as".toList (cs.drop w) && asActorTail (cs.drop (w + 2))) ||
       isPrefixL "actor".toList (cs.drop w)))
  || cs.isEmpty
  || isPrefixL "films".toList cs
  || isPrefixL "movies".toList cs
  || isPrefixL "for".toList cs

/-- End-of-capture alternation of extract patterns 2 and 3: whitespace then
end of string, or a films/movies/for literal. -/
def pbTail (cs : List Char) : Bool :=
  (let w := wsRun cs
   decide (1 ≤ w) && (cs.drop w).isEmpty)
  || isPrefixL "films".toList cs
  || isPrefixL "movies".toList cs
  || isPrefixL "for".toList cs

/-- Extract pattern 1 at a fixed position: "film" s? ws (with|wth) ws then a
lazy letters-and-whitespace capture ended by paTail. -/
def paAt (cs : List Char) : Option (List Char) :=
  match cs with
  | 'f' :: 'i' :: 'l' :: 'm' :: rest =>
    let rest := match rest with | 's' :: r => r | _ => rest
    let w := wsRun rest
    if w = 0 then none
    else
      let cs1 := rest.drop w
      let afterKw : Option (List Char) :=
        if isPrefixL "with".toList cs1 then
          let c2 := cs1.drop 4
          let w2 := wsRun c2
          if 1 ≤ w2 then some (c2.drop w2) else none
        else if isPrefixL "wth".toList cs1 then
          let c2 := cs1.drop 3
          let w2 := wsRun c2
          if 1 ≤ w2 then some (c2.drop w2) else none
        else none
      match afterKw with
      | some capStart => lazyCapture paTail capStart
      | none => none
  | _ => none

/-- Extract pattern 2 at a fixed position: "film" s? ws "starring" ws then a
lazy capture ended by pbTail. -/
def pbAt (cs : List Char) : Option (List Char) :=
  match cs with
  | 'f' :: 'i' :: 'l' :: 'm' :: rest =>
    let rest := match rest with | 's' :: r => r | _ => rest
    let w := wsRun rest
    if w = 0 then none
    else
      let cs1 := rest.drop w
      if isPrefixL "starring".toList cs1 then
        let c2 := cs1.drop 8
        let w2 := wsRun c2
        if 1 ≤ w2 then lazyCapture pbTail (c2.drop w2) else none
      else none
  | _ => none

/-- Greedy length of the trailing letter run of a capture: the largest
k between 2 and the full run length such that the tail matches after k
characters (the regex backtracks out of a greedy letter-plus when the
tail is a letter literal such as "films"). -/
def greedyK (tail : List Char → Bool) (cs : List Char) : Nat → Option Nat
  | 0 => none
  | 1 => none
  | Nat.succ k =>
    if tail (cs.drop (Nat.succ k)) then some (Nat.succ k)
    else greedyK tail cs k

/-- Extract pattern 3 at a fixed position: "film" s? ws then a capture of two
capitalized words (under IGNORECASE: two letter runs of length ≥ 2 joined by
whitespace) ended by pbTail. -/
def pcAt (cs : List Char) : Option (List Char) :=
  match cs with
  | 'f' :: 'i' :: 'l' :: 'm' :: rest =>
    let rest := match rest with | 's' :: r => r | _ => rest
    let w := wsRun rest
    if w = 0 then none
    else
      let cs1 := rest.drop w
      let r1 := letterRun cs1
      if r1 < 2 then none
      else
        let cs2 := cs1.drop r1
        let w2 := wsRun cs2
        if w2 < 1 then none
        else
          let cs3 := cs2.drop w2
          match greedyK pbTail cs3 (letterRun cs3) with
          | some k => some (cs1.take r1 ++ cs2.take w2 ++ cs3.take k)
          | none => none
  | _ => none

/-- Extract patterns 4 and 5 at a fixed position: a capture of two letter
runs (each ≥ 2) joined by whitespace, then whitespace and the literal
keyword ("film" or "movie"). -/
def pdAt (kw : List Char) (cs : List Char) : Option (List Char) :=
  let r1 := letterRun cs
  if r1 < 2 then none
  else
    let cs1 := cs.drop r1
    let w1 := wsRun cs1
    if w1 < 1 then none
    else
      let cs2 := cs1.drop w1
      let r2 := letterRun cs2
      if r2 < 2 then none
      else
        let cs3 := cs2.drop r2
        let w2 := wsRun cs3
        if w2 < 1 then none
        else if isPrefixL kw (cs3.drop w2) then
          some (cs.take r1 ++ cs1.take w1 ++ cs2.take r2)
        else none

/-- group(1).strip(); return the title-cased name only when longer than two
characters, otherwise the loop falls through to the next pattern. -/
def nameOfCapture (cap : Option (List Char)) : Option String :=
  match cap with
  | some c =>
    let name := pyStripL c
    if 2 < name.length then some (pyTitle (String.mk name)) else none
  | none => none

def extractStopWords : List String :=
  ["find", "films", "film", "movies", "movie", "with", "starring",
   "featuring", "actor", "actress", "directed", "by", "as", "an",
   "a", "the", "for", "me", "wth", "give", "suggest"]

/-- src/movie_search.py lines 72-123. -/
def extract_actor_name (query : String) : Option String :=
  let ql := pyLower query
  match knownActors.find? (fun kv => substrB kv.1 ql) with
  | some kv => some kv.2
  | none =>
    let qlc := ql.toList
    match nameOfCapture (scanO paAt qlc) with
    | some n => some n
    | none =>
      match nameOfCapture (scanO pbAt qlc) with
      | some n => some n
      | none =>
        match nameOfCapture (scanO pcAt qlc) with
        | some n => some n
        | none =>
          match nameOfCapture (scanO (pdAt "film".toList) qlc) with
          | some n => some n
          | none =>
            match nameOfCapture (scanO (pdAt "movie".toList) qlc) with
            | some n => some n
            | none =>
              let words := pySplit query
              let cleanWords := words.filter
                (fun w => ¬ extractStopWords.contains (pyLower w))
              let capWords := cleanWords.filter
                (fun w => (!w.isEmpty) &&
                  (headIsUpper w || (decide (4 < w.length) && w.toList.all Char.isAlpha)))
              if 2 ≤ capWords.length then
                some (joinSpace (capWords.drop (capWords.length - 2)))
              else
                match capWords with
                | [wrd] => some wrd
                | _ =>
                  if 2 ≤ cleanWords.length then
                    some (pyTitle (joinSpace (cleanWords.drop (cleanWords.length - 2))))
                  else none

/-! ### src/movie_search.py : retrieval pipeline

The network collaborators (TMDb endpoints, the Mem0 memory store, the detail
cache read) are modelled as an environment of oracles.  A failed or non-200
HTTP call is modelled by the oracle returning the same value the Python
except/else branch produces (an empty list, none, or an empty string):
each caller of these endpoints catches every exception and substitutes
exactly that value.  fetch_user_memories catches all its exceptions
internally and returns empty collections, so it is total here.  The
set_cached_movie write performed at line 429 is a global-state effect that
does not influence the function's return value; the cache operation itself
is modelled separately on CacheState. -/

structure FEnv where
  /-- tmdb_client.search_person: first hit or none (failure = none). -/
  searchPerson : String → Option Person
  /-- tmdb_client.get_person_movie_credits: cast ++ crew (failure = []). -/
  personCredits : Int → List Candidate
  /-- Raw results of the discover endpoint for the optional with_genres
  parameter (failure = []). -/
  discoverRaw : Option (List Int) → List Candidate
  /-- Raw results of the search/movie endpoint for a clean query
  (failure = []). -/
  searchMovie : String → List Candidate
  /-- fetch_user_memories: watched ids and watched titles for a user id
  (internal failures already degraded to empties). -/
  memories : String → List Int × List String
  /-- get_cached_movie. -/
  cachedMovie : Int → Option MovieOut
  /-- fetch_poster_and_verify_movie: poster URL (may be empty) and the
  verified detail record (none = empty dict: failure or identity mismatch). -/
  fetchPosterVerify : Int → String → String × Option Details
  /-- fetch_movie_videos (failure or no trailer = ""). -/
  fetchVideos : Int → String
  /-- datetime.now().year, used by the recency bonus of score_movie. -/
  currentYear : Int

/-- set(int(id) for id in excluded_ids if id): falsy (zero) ids are dropped. -/
def excludedSetOf (excludedIds : List Int) : List Int :=
  excludedIds.filter (fun i => decide (i ≠ 0))

/-- src/movie_search.py lines 35-69.  The fixed discover parameters (sort by
popularity, rating and vote floors, release date from 2020) live on the API
side of the oracle. -/
def discover_trending_movies (env : FEnv) (genreIds : Option (List Int))
    (excludedIds : Option (List Int)) : List Candidate :=
  let exSet := excludedSetOf (excludedIds.getD [])
  let gparam : Option (List Int) :=
    match genreIds with
    | some gs => if gs ≠ [] then some ((pyDedup gs).take 2) else none
    | none => none
  let results := env.discoverRaw gparam
  let results :=
    if exSet ≠ [] ∧ results ≠ [] then
      results.filter (fun r => ! exSet.contains r.id)
    else results
  results.take 20

/-- The per-credit keep condition of search_actor_movies (lines 170-181):
primary thresholds or the relaxed fallback thresholds. -/
def actorQualityKeep (m : Candidate) : Bool :=
  (decide (MIN_RATING ≤ m.voteAverage) && decide (MIN_VOTE_COUNT ≤ m.voteCount)) ||
  (decide (MIN_RATING_FALLBACK ≤ m.voteAverage) && decide (MIN_VOTE_COUNT_FALLBACK ≤ m.voteCount))

/-- Descending (popularity, vote_average) lexicographic key of the actor
credits sort. -/
def popVaGt (a b : Candidate) : Bool :=
  decide (b.popularity < a.popularity) ||
  (decide (a.popularity = b.popularity) && decide (b.voteAverage < a.voteAverage))

/-- src/movie_search.py lines 156-184. -/
def search_actor_movies (env : FEnv) (actorName : String) (excludedIds : List Int) : List Candidate :=
  match env.searchPerson actorName with
  | none => []
  | some person =>
    let moviesList := env.personCredits person.id
    if moviesList = [] then []
    else
      let filtered := moviesList.filter
        (fun m => (! excludedIds.contains m.id) && actorQualityKeep m)
      (sortByGt popVaGt filtered).take 30

/-- src/movie_search.py lines 218-273. -/
def score_movie (currentYear : Int) (movie : Candidate) (query : String)
    (fromActorSearch : Bool) : Rat :=
  let rating := movie.voteAverage
  let voteCount := movie.voteCount
  let popularity := movie.popularity
  let title := pyLower movie.title
  let overview := pyLower movie.overview
  let s0 : Rat := if fromActorSearch then 50 else 0
  let s1 := s0 + rating * 6
  let s2 := s1 +
    (if 10000 ≤ voteCount then (15 : Rat)
     else if 5000 ≤ voteCount then 10
     else if 2000 ≤ voteCount then 6
     else if voteCount < 1000 then -5
     else 0)
  let s3 := s2 +
    (if 100 ≤ popularity then (12 : Rat)
     else if 50 ≤ popularity then 8
     else if popularity < 5 then -3
     else 0)
  let s4 := s3 +
    (match parseYearPy movie.releaseDate with
     | some y =>
       (if y < 2010 then (-15 : Rat)
        else if 2020 ≤ y then ((min ((y - 2020) * 2) 10 : Int) : Rat)
        else 0) +
       (if currentYear - 2 ≤ y then (8 : Rat) else 0)
     | none => 0)
  let queryWords := pyDedup (pySplit (pyLower query))
  let titleMatches :=
    (queryWords.filter (fun w => decide (2 < w.length) && substrB w title)).length
  let overviewMatches :=
    (queryWords.filter (fun w => decide (2 < w.length) && substrB w overview)).length
  s4 + (titleMatches : Rat) * 10 + (overviewMatches : Rat) * 3

/-- is_christmas_query (line 290): a holiday keyword occurs in the lowered
query. -/
def isChristmasB (query : String) : Bool :=
  ["christmas", "xmas", "holiday"].any (fun kw => substrB kw (pyLower query))

/-- The genre scan of lines 311-316: GENRE_MAP keys sorted by length
descending (stable over insertion order), keep the ids of keys occurring in
the lowered query, stop at two. -/
def foundGenresOf (queryLower : String) : List Int :=
  (((sortByGt (fun a b => decide (b.1.length < a.1.length)) GENRE_MAP).filter
      (fun kv => substrB kv.1 queryLower)).map (fun kv => kv.2)).take 2

/-- cleanQuery of lines 326-328: forced to "christmas" for holiday queries,
else the first five non-stop words of the lowered query. -/
def cleanQueryOf (query : String) (isChristmas : Bool) : String :=
  if isChristmas then "christmas"
  else joinSpace
    (((pySplit (pyLower query)).filter
        (fun w => ! (["find", "a", "the", "an", "for", "me", "give"] : List String).contains w)).take 5)

/-- The actor stage (lines 296-307): results, whether an actor search was
attempted, whether results came from it. -/
def actorStage (env : FEnv) (query : String) (exSet : List Int) :
    List Candidate × Bool × Bool :=
  if is_actor_query query then
    match extract_actor_name query with
    | some name =>
      let am := search_actor_movies env name exSet
      if am ≠ [] then (am, true, true) else ([], true, false)
    | none => ([], true, false)
  else ([], false, false)

/-- The genre-discovery stage (lines 309-322): results and whether the
discover API was called. -/
def genreStage (env : FEnv) (queryLower : String) (isChristmas : Bool)
    (results0 : List Candidate) (excludedIds : List Int) : List Candidate × Bool :=
  if results0 = [] then
    if foundGenresOf queryLower ≠ [] ∧ isChristmas = false then
      (discover_trending_movies env (some (foundGenresOf queryLower)) (some excludedIds), true)
    else ([], false)
  else (results0, false)

/-- The search-API fallback stage (lines 324-339): results, whether the
search endpoint was called, and the term it was called with.  It is gated on
the actor strategy never having been attempted. -/
def searchStage (env : FEnv) (query : String) (isChristmas : Bool)
    (actorAttempted : Bool) (results1 : List Candidate) :
    List Candidate × Bool × Option String :=
  if results1 = [] ∧ actorAttempted = false then
    let cq := cleanQueryOf query isChristmas
    ((env.searchMovie cq).take 10, true, some cq)
  else (results1, false, none)

/-- The watched/excluded memory filter (lines 344-368).  fetch_user_memories
never raises (it degrades internally), and the remaining statements of the
try block are total, so the except branch is dead and the filter always
applies. -/
def memoryFilter (env : FEnv) (userId : String) (exSet : List Int)
    (results : List Candidate) : List Candidate :=
  let watched := env.memories userId
  let allExcluded := watched.1 ++ exSet
  let watchedTitlesSet := watched.2.map pyLower
  results.filter (fun r =>
    let movieTitle := pyLower r.title
    (! allExcluded.contains r.id) &&
    (! watchedTitlesSet.any (fun wt => substrB wt movieTitle || substrB movieTitle wt)))

def christmasKeywords : List String :=
  ["christmas", "xmas", "holiday", "santa", "elf", "scrooge",
   "home alone", "miracle on", "wonderful life"]

/-- The holiday keyword test of lines 381-383 on a single candidate. -/
def christmasKeep (r : Candidate) : Bool :=
  christmasKeywords.any (fun kw => substrB kw (pyLower (r.title ++ " " ++ r.overview)))

/-- The holiday keyword filter (lines 377-386): applied only on holiday
queries, and skipped when it would empty the list. -/
def christmasFilter (isChristmas : Bool) (results : List Candidate) : List Candidate :=
  if isChristmas then
    if results.filter christmasKeep ≠ [] then results.filter christmasKeep else results
  else results

/-- The score-and-sort step (lines 388-392): only when more than one
candidate remains; stable descending by score. -/
def scoreSort (env : FEnv) (query : String) (fromActor : Bool)
    (results : List Candidate) : List Candidate :=
  if 1 < results.length then
    (sortByGt (fun a b => decide (b.1 < a.1))
        (results.map (fun r => (score_movie env.currentYear r query fromActor, r)))).map
      (fun p => p.2)
  else results

/-- An output dict of fast_movie_search. -/
structure SearchOut where
  movies : List MovieOut
deriving Repr, DecidableEq, Inhabited

/-- movie_data built at lines 418-427. -/
def buildMovieData (movieId : Int) (posterUrl trailerUrl : String) (d : Details) : MovieOut :=
  { id := movieId, title := d.title, rating := d.voteAverage,
    posterUrl := posterUrl, trailerUrl := trailerUrl,
    overview := d.overview.take 200, genres := d.genres, runtime := d.runtime }

/-- A follow-up queue entry built at lines 434-442 (no genres or runtime
keys in the source dict). -/
def buildQueueEntry (r : Candidate) : MovieOut :=
  { id := r.id, title := r.title, rating := r.voteAverage,
    posterUrl := validate_and_build_poster_url r.posterPath, trailerUrl := "",
    overview := r.overview.take 200, genres := [], runtime := 0 }

/-- The head-detail step (lines 397-447): falsy head id aborts; a cache hit
returns the single cached record; otherwise the verified details are fetched
(failure aborts) and either the single movie or, for actor retrievals with
more than one remaining candidate, a queue of the head plus at most nine
follow-ups is returned.  The Bool is the cache-hit flag. -/
def finalize (env : FEnv) (fromActor : Bool) (sorted : List Candidate) :
    Option SearchOut × Bool :=
  match sorted with
  | [] => (none, false)
  | first :: rest =>
    if first.id = 0 then (none, false)
    else
      match env.cachedMovie first.id with
      | some cached => (some ⟨[cached]⟩, true)
      | none =>
        match env.fetchPosterVerify first.id first.title with
        | (posterUrl, some d) =>
          let movieData := buildMovieData first.id posterUrl (env.fetchVideos first.id) d
          if fromActor ∧ rest ≠ [] then
            (some ⟨movieData :: (rest.take 9).map buildQueueEntry⟩, false)
          else (some ⟨[movieData]⟩, false)
        | (_, none) => (none, false)

/-- Lines 341-447 after strategy selection: the early empty-result returns
and the filter/score/finalize chain.  The Bool is the cache-hit flag. -/
def fastResultCore (env : FEnv) (query userId : String) (exSet : List Int)
    (isChristmas fromActor : Bool) (results2 : List Candidate) :
    Option SearchOut × Bool :=
  if results2 = [] then (none, false)
  else if memoryFilter env userId exSet results2 = [] then (none, false)
  else if filter_by_quality (memoryFilter env userId exSet results2) isChristmas = [] then
    (none, false)
  else if scoreSort env query fromActor
      (christmasFilter isChristmas
        (filter_by_quality (memoryFilter env userId exSet results2) isChristmas)) = [] then
    (none, false)
  else
    finalize env fromActor
      (scoreSort env query fromActor
        (christmasFilter isChristmas
          (filter_by_quality (memoryFilter env userId exSet results2) isChristmas)))

/-- Which strategies a fast_movie_search run exercised (observable through
the calls it issues and the value it returns). -/
structure STrace where
  actorAttempted : Bool
  fromActorSearch : Bool
  discoverCalled : Bool
  searchCalled : Bool
  searchTerm : Option String
  cacheHit : Bool
deriving Repr, DecidableEq

/-- src/movie_search.py lines 276-451. -/
def fast_movie_search (env : FEnv) (query userId : String)
    (excludedIds : List Int) : Option SearchOut × STrace :=
  let exSet := excludedSetOf excludedIds
  let isX := isChristmasB query
  let a := actorStage env query exSet
  let g := genreStage env (pyLower query) isX a.1 excludedIds
  let s := searchStage env query isX a.2.1 g.1
  let core := fastResultCore env query userId exSet isX a.2.2 s.1
  (core.1,
   { actorAttempted := a.2.1, fromActorSearch := a.2.2, discoverCalled := g.2,
     searchCalled := s.2.1, searchTerm := s.2.2, cacheHit := core.2 })

/-! ### src/handlers.py : session state machine

context.user_data is the per-conversation session.  The prefetch slot
(prefetched_next_movie, prefetched_query) is written and cleared only as a
pair (handlers lines 162-163, 267-268, 561-562), so it is modelled as a
single optional pair.  Delivery (send_movie_suggestion), memory writes,
logging and the job queue are external effects; the movie handed to
send_movie_suggestion is the second component of each transition's result.
The background prefetch task spawned after an offer is detached and its
write is not part of the transition.  The agent collaborator and the
parse_json_response of its free-text reply are modelled as an oracle
delivering the parsed movie list (none models a falsy, timed-out or
unparsable reply). -/

structure Session where
  originalPrompt : String := ""
  movieQueue : List MovieOut := []
  suggestedMovies : List Int := []
  prefetched : Option (MovieOut × String) := none
  watchingKeys : List String := []
deriving Repr, DecidableEq, Inhabited

/-- An entry of the agent's parsed "movies" list (id 0 and title "" model
falsy or missing keys, rejected at line 353). -/
structure AgentMovie where
  id : Int
  title : String
  rating : Rat
  trailerUrl : String
deriving Repr, DecidableEq, Inhabited

structure HEnv where
  fenv : FEnv
  userId : String
  /-- get_agent_response composed with parse_json_response: none = no/timed
  out/falsy agent reply (line 293-301); some none = reply that did not parse
  to a movies dict (line 347-350); some (some ms) = the parsed list. -/
  agentParsed : Option (Option (List AgentMovie))
  /-- Whether the wait_for around the button-callback fast search (line 583)
  times out. -/
  fastTimesOut : Bool

/-- "No description available." padding of empty truncated overviews
(handlers lines 334 and 391). -/
def padOverview (s : String) : String :=
  if s = "" then "No description available." else s

def commonTitleWords : List String :=
  ["the", "a", "an", "and", "of", "in", "on", "at", "to", "for"]

/-- First four words of the normalized title, minus common words (handlers
lines 370-374, a set: order and duplicates do not matter downstream). -/
def sigWords (t : String) : List String :=
  pyDedup (((pySplit (pyStrip (pyLower t))).take 4).filter
    (fun w => ! commonTitleWords.contains w))

/-- The title-mismatch rejection of handlers lines 366-378. -/
def titleMismatch (agentTitle actualTitle : String) : Bool :=
  if agentTitle ≠ "" ∧ actualTitle ≠ "" then
    let agentNorm := pyStrip (pyLower agentTitle)
    let actualNorm := pyStrip (pyLower actualTitle)
    let aw := sigWords agentTitle
    let bw := sigWords actualTitle
    (! aw.any (fun w => bw.contains w)) && decide (agentNorm ≠ actualNorm) &&
      decide (aw ≠ []) && decide (bw ≠ [])
  else false

/-- The per-movie validation of the agent path (handlers lines 352-392):
requires truthy id and title, fetchable verified details with a poster, no
title mismatch, rating ≥ 7.0 and vote_count ≥ 500. -/
def validateAgentMovie (env : FEnv) (m : AgentMovie) : Option MovieOut :=
  if m.id = 0 ∨ m.title = "" then none
  else
    match env.fetchPosterVerify m.id m.title with
    | (posterUrl, some d) =>
      if posterUrl = "" then none
      else if titleMismatch m.title d.title then none
      else if d.voteAverage < 7 ∨ d.voteCount < 500 then none
      else some
        { id := m.id, title := d.title, rating := d.voteAverage,
          posterUrl := posterUrl, trailerUrl := m.trailerUrl,
          overview := padOverview (d.overview.take 200), genres := [], runtime := 0 }
    | (_, none) => none

/-- Store a fast-search result: queue := movies, append the head id to
suggested_movies, offer the head (handlers lines 283-289 and the analogous
blocks). -/
def offerFirst (s : Session) (movies : List MovieOut) : Session × Option MovieOut :=
  match movies with
  | [] => (s, none)
  | m :: _ =>
    ({s with movieQueue := movies, suggestedMovies := s.suggestedMovies ++ [m.id]}, some m)

/-- The final fast-search fallback of the agent path (handlers lines
402-414). -/
def finalFastFallback (env : HEnv) (s : Session) (userMessage : String) :
    Session × Option MovieOut :=
  match (fast_movie_search env.fenv userMessage env.userId []).1 with
  | some out => if out.movies ≠ [] then offerFirst s out.movies else (s, none)
  | none => (s, none)

/-- The last-resort discover fallback of the no-agent path (handlers lines
311-344); on success suggested_movies is replaced, not appended to (line
337). -/
def discoverFallbackMsg (env : HEnv) (s : Session) (userMessage : String) :
    Session × Option MovieOut :=
  if isChristmasB userMessage = false then
    let userLower := pyLower userMessage
    let foundGenres := (GENRE_MAP.filter (fun kv => substrB kv.1 userLower)).map
      (fun kv => kv.2)
    let dr := discover_trending_movies env.fenv
      (if foundGenres ≠ [] then some (foundGenres.take 2) else none) (some [])
    match dr with
    | [] => (s, none)
    | first :: _ =>
      if first.id = 0 then (s, none)
      else
        match env.fenv.fetchPosterVerify first.id first.title with
        | (posterUrl, some d) =>
          if posterUrl ≠ "" then
            let movieData : MovieOut :=
              { id := first.id, title := d.title, rating := d.voteAverage,
                posterUrl := posterUrl, trailerUrl := "",
                overview := padOverview (d.overview.take 200), genres := [], runtime := 0 }
            ({s with movieQueue := [movieData], suggestedMovies := [first.id]},
             some movieData)
          else (s, none)
        | (_, none) => (s, none)
  else (s, none)

/-- The no-agent-response path (handlers lines 300-344). -/
def noAgentFallback (env : HEnv) (s : Session) (userMessage : String) :
    Session × Option MovieOut :=
  match (fast_movie_search env.fenv userMessage env.userId []).1 with
  | some out =>
    if out.movies ≠ [] then offerFirst s out.movies
    else discoverFallbackMsg env s userMessage
  | none => discoverFallbackMsg env s userMessage

/-- The agent path of handle_message (lines 292-414). -/
def agentPath (env : HEnv) (s : Session) (userMessage : String) :
    Session × Option MovieOut :=
  match env.agentParsed with
  | none => noAgentFallback env s userMessage
  | some parsed =>
    match parsed with
    | some agentMovies =>
      if agentMovies ≠ [] then
        let validMovies := agentMovies.filterMap (validateAgentMovie env.fenv)
        if validMovies ≠ [] then offerFirst s validMovies
        else finalFastFallback env s userMessage
      else finalFastFallback env s userMessage
    | none => finalFastFallback env s userMessage

/-- src/handlers.py lines 250-417 (handle_message) for a private chat: the
session transition and the movie offered this turn (none = a text reply
without a suggestion). -/
def handle_message (env : HEnv) (s : Session) (userMessage : String) :
    Session × Option MovieOut :=
  let isNewQuery := pyStrip (pyLower s.originalPrompt) ≠ pyStrip (pyLower userMessage)
  let s :=
    if isNewQuery then
      {s with movieQueue := [], prefetched := none, suggestedMovies := []}
    else s
  let s := {s with originalPrompt := userMessage}
  if is_actor_query userMessage then
    match (fast_movie_search env.fenv userMessage env.userId []).1 with
    | some out =>
      if out.movies ≠ [] then offerFirst s out.movies
      else agentPath env s userMessage
    | none => agentPath env s userMessage
  else agentPath env s userMessage

/-- Handlers lines 447-547: the watch marker, the unconditional removal of
the current movie from the queue, and the append of its id to
suggested_movies (when it parses and is not already there). -/
def rejectBase (s : Session) (action movieIdStr : String) : Session :=
  let s1 :=
    if action = "watch" then {s with watchingKeys := s.watchingKeys ++ [movieIdStr]}
    else s
  let s2 :=
    if s1.movieQueue ≠ [] then
      {s1 with movieQueue := s1.movieQueue.filter (fun m => toString m.id ≠ movieIdStr)}
    else s1
  match pyInt movieIdStr with
  | some mid =>
    if s2.suggestedMovies.contains mid then s2
    else {s2 with suggestedMovies := s2.suggestedMovies ++ [mid]}
  | none => s2

/-- The last-resort discover fallback of the button callback (handlers lines
602-635); suggested_movies is appended to (line 628). -/
def btnDiscoverFallback (env : HEnv) (s3 : Session) : Session × Option MovieOut :=
  if is_actor_query s3.originalPrompt then (s3, none)
  else
    let originalLower := pyLower s3.originalPrompt
    let foundGenres := (GENRE_MAP.filter (fun kv => substrB kv.1 originalLower)).map
      (fun kv => kv.2)
    let dr := discover_trending_movies env.fenv
      (if foundGenres ≠ [] then some (foundGenres.take 2) else none)
      (some s3.suggestedMovies)
    match dr with
    | [] => (s3, none)
    | first :: _ =>
      if first.id = 0 then (s3, none)
      else
        match env.fenv.fetchPosterVerify first.id first.title with
        | (posterUrl, some d) =>
          if posterUrl ≠ "" then
            let movieData : MovieOut :=
              { id := first.id, title := d.title, rating := d.voteAverage,
                posterUrl := posterUrl, trailerUrl := "",
                overview := d.overview.take 200, genres := [], runtime := 0 }
            ({s3 with movieQueue := [movieData],
                      suggestedMovies := s3.suggestedMovies ++ [first.id]},
             some movieData)
          else (s3, none)
        | (_, none) => (s3, none)

/-- Handlers lines 568-600: offer from the suggested-filtered queue, else run
a fresh fast search seeded with the excluded set, else fall to discover. -/
def queueOrSearch (env : HEnv) (s3 : Session) : Session × Option MovieOut :=
  match s3.movieQueue.filter (fun m => ! s3.suggestedMovies.contains m.id) with
  | f :: t => ({s3 with movieQueue := f :: t}, some f)
  | [] =>
    let fastResult :=
      if env.fastTimesOut then none
      else (fast_movie_search env.fenv s3.originalPrompt env.userId s3.suggestedMovies).1
    match fastResult with
    | some out =>
      match out.movies with
      | first :: _ =>
        ({s3 with movieQueue := out.movies,
                  suggestedMovies := s3.suggestedMovies ++ [first.id]},
         some first)
      | [] => btnDiscoverFallback env s3
    | none => btnDiscoverFallback env s3

/-- Handlers lines 549-566 then 568-635: the reject continuation — a
standing prefetched candidate with a matching prompt and a truthy,
not-yet-excluded id wins (the slot is cleared and its id excluded), else the
queue, else fresh retrieval, else discover. -/
def nextAfterReject (env : HEnv) (s3 : Session) : Session × Option MovieOut :=
  match s3.prefetched with
  | some (pm, pq) =>
    if pyStrip (pyLower pq) = pyStrip (pyLower s3.originalPrompt) then
      if pm.id ≠ 0 ∧ (! s3.suggestedMovies.contains pm.id) = true then
        ({s3 with prefetched := none,
                  suggestedMovies := s3.suggestedMovies ++ [pm.id],
                  movieQueue := [pm]},
         some pm)
      else queueOrSearch env s3
    else queueOrSearch env s3
  | none => queueOrSearch env s3

/-- src/handlers.py lines 420-639 (handle_button_callback): the session
transition for a callback-data string and the movie offered this turn. -/
def handle_button_callback (env : HEnv) (s : Session) (data : String) :
    Session × Option MovieOut :=
  match pySplitOnce data '_' with
  | none => (s, none)
  | some (action, movieIdStr) =>
    match s.movieQueue.find? (fun m => toString m.id == movieIdStr) with
    | none => (s, none)
    | some _ =>
      let s3 := rejectBase s action movieIdStr
      if action = "dislike" ∨ action = "watched" then nextAfterReject env s3
      else (s3, none)

/-! ### Concrete environments and states used by witnesses and
counterexamples -/

/-- An environment whose every collaborator call comes back empty (the value
each Python caller substitutes on failure). -/
def emptyFEnv : FEnv :=
  { searchPerson := fun _ => none
    personCredits := fun _ => []
    discoverRaw := fun _ => []
    searchMovie := fun _ => []
    memories := fun _ => ([], [])
    cachedMovie := fun _ => none
    fetchPosterVerify := fun _ _ => ("", none)
    fetchVideos := fun _ => ""
    currentYear := 2026 }

def movieDummy : MovieOut :=
  { id := 0, title := "", rating := 0, posterUrl := "", trailerUrl := "",
    overview := "", genres := [], runtime := 0 }

/-- Counterexample candidate for the age rule: pre-2010 with rating 9.0 but
only 5000 votes. -/
def cC1 : Candidate :=
  { id := 1, title := "Old Gem", overview := "", releaseDate := "2005-01-01",
    voteAverage := 9, voteCount := 5000, popularity := 50, posterPath := "" }

/-- Witness candidate for the amended age rule: pre-2010 with rating 9.0 and
20000 votes. -/
def cC1w : Candidate :=
  { id := 2, title := "Old Classic", overview := "", releaseDate := "2005-01-01",
    voteAverage := 9, voteCount := 20000, popularity := 50, posterPath := "" }

/-- A well-rated recent candidate the search endpoint would return. -/
def cSearchHit : Candidate :=
  { id := 42, title := "Search Hit", overview := "found", releaseDate := "2022-03-03",
    voteAverage := 8, voteCount := 2000, popularity := 80, posterPath := "" }

/-- Environment for the actor-fallthrough claim: the person resolves, their
credit list is empty, and the search endpoint would return a usable
candidate. -/
def envC2 : FEnv :=
  { emptyFEnv with
    searchPerson := fun n => if n = "Jason Statham" then some ⟨7⟩ else none
    searchMovie := fun _ => [cSearchHit] }

def cAlpha : Candidate :=
  { id := 5, title := "Alpha One", overview := "great", releaseDate := "2022-01-01",
    voteAverage := 8, voteCount := 20000, popularity := 200, posterPath := "" }

def dAlpha : Details :=
  { title := "Alpha One", voteAverage := 8, voteCount := 20000,
    overview := "great", genres := ["Action"], runtime := 100 }

def cBeta : Candidate :=
  { id := 7, title := "Beta Two", overview := "", releaseDate := "2021-05-05",
    voteAverage := 7.2, voteCount := 600, popularity := 10, posterPath := "" }

/-- Actor environment returning two credits so that the actor path builds a
queue. -/
def envC3f : FEnv :=
  { emptyFEnv with
    searchPerson := fun n => if n = "Jason Statham" then some ⟨7⟩ else none
    personCredits := fun i => if i = 7 then [cAlpha, cBeta] else []
    fetchPosterVerify := fun i _ =>
      if i = 5 then ("https://image.tmdb.org/t/p/w500/a.jpg", some dAlpha)
      else ("", none) }

def henvC3 : HEnv :=
  { fenv := envC3f, userId := "u", agentParsed := none, fastTimesOut := false }

def session0 : Session := {}

def mQueue1 : MovieOut :=
  { id := 1, title := "Queued One", rating := 8, posterUrl := "p", trailerUrl := "",
    overview := "", genres := [], runtime := 0 }

def mQueue2 : MovieOut :=
  { id := 2, title := "Queued Two", rating := 7, posterUrl := "p", trailerUrl := "",
    overview := "", genres := [], runtime := 0 }

def henvTrivial : HEnv :=
  { fenv := emptyFEnv, userId := "u", agentParsed := none, fastTimesOut := false }

/-- Session for the queue-fallback reject witness: two queued movies, the
first about to be rejected, no prefetch. -/
def sW3 : Session :=
  { originalPrompt := "q", movieQueue := [mQueue1, mQueue2], suggestedMovies := [],
    prefetched := none, watchingKeys := [] }

/-- The prefetched candidate of the C9 witness. -/
def pmW9 : MovieOut :=
  { id := 2, title := "Prefetched", rating := 8, posterUrl := "p", trailerUrl := "",
    overview := "", genres := [], runtime := 0 }

/-- Session with a standing matching-prompt prefetched candidate. -/
def sW9 : Session :=
  { originalPrompt := "q", movieQueue := [mQueue1], suggestedMovies := [],
    prefetched := some (pmW9, "q"), watchingKeys := [] }

/-- A credit with the falsy id 0 (id 0 is dropped from the exclusion set). -/
def cZero : Candidate :=
  { id := 0, title := "Zero Movie", overview := "", releaseDate := "2021-05-05",
    voteAverage := 7.2, voteCount := 600, popularity := 10, posterPath := "" }

/-- Actor environment whose second credit has id 0, for the exclusion
round-trip counterexample. -/
def envC5 : FEnv :=
  { emptyFEnv with
    searchPerson := fun n => if n = "Jason Statham" then some ⟨7⟩ else none
    personCredits := fun i => if i = 7 then [cAlpha, cZero] else []
    fetchPosterVerify := fun i _ =>
      if i = 5 then ("https://image.tmdb.org/t/p/w500/a.jpg", some dAlpha)
      else ("", none) }

def cHorror : Candidate :=
  { id := 3, title := "Night Fright", overview := "spooky", releaseDate := "2022-01-01",
    voteAverage := 8, voteCount := 1000, popularity := 60, posterPath := "" }

def dHorror : Details :=
  { title := "Night Fright", voteAverage := 8, voteCount := 1000,
    overview := "spooky", genres := ["Horror"], runtime := 95 }

/-- Discover-path environment for the exclusion round-trip witness. -/
def envC5w : FEnv :=
  { emptyFEnv with
    discoverRaw := fun _ => [cHorror]
    fetchPosterVerify := fun i _ =>
      if i = 3 then ("https://image.tmdb.org/t/p/w500/h.jpg", some dHorror)
      else ("", none) }

/-- The single movie envC5w's run returns. -/
def mdW5 : MovieOut :=
  { id := 3, title := "Night Fright", rating := 8,
    posterUrl := "https://image.tmdb.org/t/p/w500/h.jpg", trailerUrl := "",
    overview := "spooky", genres := ["Horror"], runtime := 95 }

def outW5 : SearchOut := ⟨[mdW5]⟩

/-- Discover-path environment for the result-shape witness. -/
def envW10 : FEnv :=
  { emptyFEnv with
    discoverRaw := fun _ => [cHorror]
    fetchPosterVerify := fun i _ =>
      if i = 3 then ("https://image.tmdb.org/t/p/w500/h.jpg", some dHorror)
      else ("", none) }

def outW10 : SearchOut := ⟨[mdW5]⟩

/-- A 100-entry cache (ids 0 through 99, in insertion order). -/
def cacheW : CacheState := (List.range 100).map (fun i => ((i : Int), movieDummy))

/-! ## Theorems -/

/-! ### Helper lemmas -/

theorem mem_insertByGt {gt : α → α → Bool} {x y : α} {l : List α} :
    y ∈ insertByGt gt x l ↔ y = x ∨ y ∈ l := by
  induction l with
  | nil => simp [insertByGt]
  | cons a t ih =>
    simp only [insertByGt]
    split
    · simp only [List.mem_cons, ih]
      tauto
    · simp [List.mem_cons]

theorem mem_sortByGt {gt : α → α → Bool} {y : α} {l : List α} :
    y ∈ sortByGt gt l ↔ y ∈ l := by
  induction l with
  | nil => simp [sortByGt]
  | cons a t ih => simp [sortByGt, mem_insertByGt, ih]

theorem scoreSort_subset {env : FEnv} {query : String} {fromActor : Bool}
    {rs : List Candidate} {x : Candidate} (h : x ∈ scoreSort env query fromActor rs) :
    x ∈ rs := by
  unfold scoreSort at h
  split at h
  · simp only [List.mem_map] at h
    obtain ⟨p, hp, rfl⟩ := h
    rw [mem_sortByGt] at hp
    simp only [List.mem_map] at hp
    obtain ⟨r, hr, rfl⟩ := hp
    exact hr
  · exact h

theorem filter_by_quality_subset {l : List Candidate} {b : Bool} {x : Candidate}
    (h : x ∈ filter_by_quality l b) : x ∈ l := by
  unfold filter_by_quality at h
  split at h
  · exact List.mem_of_mem_filter h
  · exact List.mem_of_mem_filter h

theorem christmasFilter_subset {b : Bool} {rs : List Candidate} {x : Candidate}
    (h : x ∈ christmasFilter b rs) : x ∈ rs := by
  unfold christmasFilter at h
  split at h
  · split at h
    · exact List.mem_of_mem_filter h
    · exact h
  · exact h

theorem memoryFilter_not_excluded {env : FEnv} {userId : String} {exSet : List Int}
    {rs : List Candidate} {x : Candidate} {i : Int}
    (h : x ∈ memoryFilter env userId exSet rs) (hi : i ∈ exSet) : x.id ≠ i := by
  unfold memoryFilter at h
  rw [List.mem_filter] at h
  have hcontains := h.2
  simp only [Bool.and_eq_true, Bool.not_eq_true'] at hcontains
  intro hxe
  have : (((env.memories userId).1 ++ exSet).contains x.id) = true := by
    rw [List.contains_eq_any_beq]
    rw [List.any_eq_true]
    exact ⟨i, List.mem_append_right _ hi, by rw [hxe]; simp⟩
  rw [this] at hcontains
  exact absurd hcontains.1 (by simp)

theorem finalize_ids {env : FEnv} {fromActor : Bool} {sorted : List Candidate}
    {out : SearchOut} (hc : ∀ k m, env.cachedMovie k = some m → m.id = k)
    (h : (finalize env fromActor sorted).1 = some out) :
    ∀ m ∈ out.movies, ∃ c ∈ sorted, m.id = c.id := by
  unfold finalize at h
  cases sorted with
  | nil => exact absurd h (by simp)
  | cons first rest =>
    dsimp only at h
    split at h
    · exact absurd h (by simp)
    · cases hcache : env.cachedMovie first.id with
      | some cached =>
        rw [hcache] at h
        dsimp only at h
        simp only [Option.some.injEq] at h
        subst h
        intro m hm
        simp only [List.mem_singleton] at hm
        subst hm
        exact ⟨first, List.mem_cons_self _ _, hc _ _ hcache⟩
      | none =>
        rw [hcache] at h
        dsimp only at h
        cases hfetch : env.fetchPosterVerify first.id first.title with
        | mk posterUrl dOpt =>
          rw [hfetch] at h
          cases dOpt with
          | none => exact absurd h (by simp)
          | some d =>
            dsimp only at h
            split at h
            · simp only [Option.some.injEq] at h
              subst h
              intro m hm
              simp only [List.mem_cons] at hm
              rcases hm with rfl | hm
              · exact ⟨first, List.mem_cons_self _ _, rfl⟩
              · simp only [List.mem_map] at hm
                obtain ⟨r, hr, rfl⟩ := hm
                exact ⟨r, List.mem_cons_of_mem _ (List.take_subset _ _ hr), rfl⟩
            · simp only [Option.some.injEq] at h
              subst h
              intro m hm
              simp only [List.mem_singleton] at hm
              subst hm
              exact ⟨first, List.mem_cons_self _ _, rfl⟩

theorem finalize_shape {env : FEnv} {fromActor : Bool} {sorted : List Candidate}
    {out : SearchOut} (h : (finalize env fromActor sorted).1 = some out) :
    (1 ≤ out.movies.length ∧ out.movies.length ≤ 10) ∧
      ((finalize env fromActor sorted).2 = true → out.movies.length = 1) ∧
      (fromActor = false → out.movies.length = 1) := by
  unfold finalize at h ⊢
  cases sorted with
  | nil => exact absurd h (by simp)
  | cons first rest =>
    dsimp only at h ⊢
    split at h
    · exact absurd h (by simp)
    · rename_i hid0
      rw [if_neg hid0]
      cases hcache : env.cachedMovie first.id with
      | some cached =>
        rw [hcache] at h
        dsimp only at h ⊢
        simp only [Option.some.injEq] at h
        subst h
        refine ⟨by simp, fun _ => by simp, fun _ => by simp⟩
      | none =>
        rw [hcache] at h
        dsimp only at h ⊢
        cases hfetch : env.fetchPosterVerify first.id first.title with
        | mk posterUrl dOpt =>
          rw [hfetch] at h
          cases dOpt with
          | none => exact absurd h (by simp)
          | some d =>
            dsimp only at h ⊢
            split at h
            · rename_i hbranch
              rw [if_pos hbranch]
              simp only [Option.some.injEq] at h
              subst h
              have hlen : ((rest.take 9).map buildQueueEntry).length ≤ 9 := by
                rw [List.length_map, List.length_take]
                omega
              refine ⟨⟨by simp, by simp only [List.length_cons]; omega⟩,
                fun hfalse => by simp at hfalse, fun hfa => ?_⟩
              rw [hfa] at hbranch
              exact absurd hbranch.1 (by simp)
            · rename_i hbranch
              rw [if_neg hbranch]
              simp only [Option.some.injEq] at h
              subst h
              exact ⟨⟨by simp, by simp⟩, fun _ => by simp, fun _ => by simp⟩

theorem fastResultCore_excluded {env : FEnv} {query userId : String}
    {exSet : List Int} {isChristmas fromActor : Bool} {results2 : List Candidate}
    {out : SearchOut} {i : Int}
    (hc : ∀ k m, env.cachedMovie k = some m → m.id = k) (hi : i ∈ exSet)
    (h : (fastResultCore env query userId exSet isChristmas fromActor results2).1 = some out) :
    ∀ m ∈ out.movies, m.id ≠ i := by
  unfold fastResultCore at h
  split at h
  · exact absurd h (by simp)
  · split at h
    · exact absurd h (by simp)
    · split at h
      · exact absurd h (by simp)
      · split at h
        · exact absurd h (by simp)
        · intro m hm
          obtain ⟨c, hcs, hid⟩ := finalize_ids hc h m hm
          rw [hid]
          exact memoryFilter_not_excluded
            (filter_by_quality_subset (christmasFilter_subset (scoreSort_subset hcs))) hi

theorem actorStage_spec (env : FEnv) (q : String) (exSet : List Int) :
    ((actorStage env q exSet).2.2 = false → (actorStage env q exSet).1 = []) ∧
    (is_actor_query q = true → (actorStage env q exSet).2.1 = true) := by
  unfold actorStage
  by_cases hq : is_actor_query q = true
  · simp only [hq, if_true]
    cases extract_actor_name q with
    | none => simp
    | some name =>
      dsimp only
      split
      · simp
      · simp
  · simp [hq]

theorem genreStage_called (env : FEnv) (ql : String) (isX : Bool)
    (r0 : List Candidate) (ex : List Int) :
    (genreStage env ql isX r0 ex).2 = true ↔
      (r0 = [] ∧ foundGenresOf ql ≠ [] ∧ isX = false) := by
  unfold genreStage
  split
  · rename_i h0
    split
    · rename_i hg
      simp [h0, hg.1, hg.2]
    · rename_i hg
      simp only [not_and_or] at hg
      rcases hg with hg | hg <;> simp [h0, hg]
  · rename_i h0
    simp [h0]

theorem genreStage_holiday (env : FEnv) (ql : String) {isX : Bool}
    (r0 : List Candidate) (ex : List Int) (hx : isX = true) :
    (genreStage env ql isX r0 ex).2 = false := by
  unfold genreStage
  split
  · rw [if_neg (by simp [hx])]
  · rfl

theorem searchStage_not_called (env : FEnv) (q : String) (isX : Bool)
    {att : Bool} (r1 : List Candidate) (hatt : att = true) :
    (searchStage env q isX att r1).2.1 = false := by
  unfold searchStage
  rw [if_neg (by simp [hatt])]

theorem searchStage_term (env : FEnv) (q : String) (isX att : Bool)
    (r1 : List Candidate) (h : (searchStage env q isX att r1).2.1 = true) :
    (searchStage env q isX att r1).2.2 = some (cleanQueryOf q isX) := by
  unfold searchStage at h ⊢
  split at h
  · rename_i hcond
    rw [if_pos hcond]
  · exact absurd h (by simp)

theorem fastResultCore_shape {env : FEnv} {q u : String} {exSet : List Int}
    {isX fa : Bool} {r2 : List Candidate} {out : SearchOut}
    (h : (fastResultCore env q u exSet isX fa r2).1 = some out) :
    (1 ≤ out.movies.length ∧ out.movies.length ≤ 10) ∧
    ((fastResultCore env q u exSet isX fa r2).2 = true → out.movies.length = 1) ∧
    (fa = false → out.movies.length = 1) := by
  unfold fastResultCore at h ⊢
  by_cases h1 : r2 = []
  · rw [if_pos h1] at h
    exact absurd h (by simp)
  · rw [if_neg h1] at h ⊢
    by_cases h2 : memoryFilter env u exSet r2 = []
    · rw [if_pos h2] at h
      exact absurd h (by simp)
    · rw [if_neg h2] at h ⊢
      by_cases h3 : filter_by_quality (memoryFilter env u exSet r2) isX = []
      · rw [if_pos h3] at h
        exact absurd h (by simp)
      · rw [if_neg h3] at h ⊢
        by_cases h4 : scoreSort env q fa
            (christmasFilter isX (filter_by_quality (memoryFilter env u exSet r2) isX)) = []
        · rw [if_pos h4] at h
          exact absurd h (by simp)
        · rw [if_neg h4] at h ⊢
          exact finalize_shape h

theorem rejectBase_prefetched (s : Session) (action movieIdStr : String) :
    (rejectBase s action movieIdStr).prefetched = s.prefetched := by
  unfold rejectBase
  dsimp only
  repeat' split
  all_goals rfl

theorem rejectBase_originalPrompt (s : Session) (action movieIdStr : String) :
    (rejectBase s action movieIdStr).originalPrompt = s.originalPrompt := by
  unfold rejectBase
  dsimp only
  repeat' split
  all_goals rfl

/-! ### C1 : the pre-2010 age rule of the primary quality tier -/

/-- C1 counterexample: a non-holiday candidate with release year 2005,
rating 9.0 and vote_count 5000 satisfies the claim's hypotheses and its
disjunction (rating ≥ 8.5 OR vote_count ≥ 10000), yet the primary tier drops
it: the code requires the conjunction. -/
theorem C1_counterexample :
    MIN_RATING ≤ cC1.voteAverage ∧ MIN_VOTE_COUNT ≤ cC1.voteCount ∧
    parseYearPy cC1.releaseDate = some 2005 ∧ (2005 : Int) < 2010 ∧
    ((8.5 : Rat) ≤ cC1.voteAverage ∨ (10000 : Int) ≤ cC1.voteCount) ∧
    cC1 ∉ primaryTier [cC1] false := by
  refine ⟨by decide, by decide, by decide, by decide, Or.inl (by decide), ?_⟩
  decide

/-- C1 (amended): for a candidate meeting the primary thresholds whose
release year parses and is earlier than 2010, on a non-holiday query the
primary tier of filter_by_quality keeps it if and only if its rating is at
least 8.5 AND its vote_count is at least 10000 (the code drops a pre-2010
candidate when rating < 8.5 OR vote_count < 10000); on a holiday query the
age rule is skipped and the candidate is kept. -/
theorem C1_amended_age_rule (L : List Candidate) (r : Candidate) (y : Int)
    (hmem : r ∈ L) (hr : MIN_RATING ≤ r.voteAverage) (hv : MIN_VOTE_COUNT ≤ r.voteCount)
    (hy : parseYearPy r.releaseDate = some y) (hylt : y < 2010) :
    (r ∈ primaryTier L false ↔ ((8.5 : Rat) ≤ r.voteAverage ∧ (10000 : Int) ≤ r.voteCount)) ∧
    r ∈ primaryTier L true := by
  have hne : r.releaseDate ≠ "" := by
    intro he
    rw [he] at hy
    rw [show parseYearPy "" = none from rfl] at hy
    exact Option.noConfusion hy
  have hkeepT : primaryKeep r true = true := by
    unfold primaryKeep
    rw [if_pos ⟨hr, hv⟩, if_neg (by simp)]
  have hkeepF : primaryKeep r false =
      decide (¬ (y < 2010 ∧ (r.voteAverage < 8.5 ∨ r.voteCount < 10000))) := by
    unfold primaryKeep
    rw [if_pos ⟨hr, hv⟩, if_pos ⟨hne, rfl⟩, hy]
  constructor
  · unfold primaryTier
    rw [List.mem_filter, hkeepF, decide_eq_true_eq]
    constructor
    · rintro ⟨-, hno⟩
      rcases not_and_or.mp hno with h1 | h2
      · exact absurd hylt h1
      · push_neg at h2
        exact h2
    · rintro ⟨h1, h2⟩
      refine ⟨hmem, ?_⟩
      rintro ⟨-, h3 | h3⟩
      · exact absurd h1 (not_le.mpr h3)
      · exact absurd h2 (not_le.mpr h3)
  · unfold primaryTier
    rw [List.mem_filter]
    exact ⟨hmem, hkeepT⟩

/-- C1 witness: the spec's own scenario candidate (2005, rating 9.0,
vote_count 50000-class) meets the amended rule and passes the primary tier
on a non-holiday query, and is kept unconditionally on a holiday query. -/
theorem C1_witness :
    cC1w ∈ primaryTier [cC1w] false ∧ cC1w ∈ primaryTier [cC1w] true := by
  have h := C1_amended_age_rule [cC1w] cC1w 2005 (by decide) (by decide) (by decide)
    (by decide) (by decide)
  exact ⟨h.1.mpr ⟨by decide, by decide⟩, h.2⟩

/-! ### C4 : idempotence of the quality filter -/

/-- C4: filter_by_quality is idempotent — filtering an already-filtered list
with the same holiday flag returns the same list, whether the first
application admitted candidates at the primary tier or at the relaxed
fallback tier. -/
theorem C4_quality_filter_idempotent (L : List Candidate) (c : Bool) :
    filter_by_quality (filter_by_quality L c) c = filter_by_quality L c := by
  by_cases h : primaryTier L c = []
  · have hR : filter_by_quality L c = L.filter relaxedKeep := by
      unfold filter_by_quality
      rw [if_neg (by simpa using h)]
    have hsub : primaryTier (L.filter relaxedKeep) c = [] := by
      unfold primaryTier at h ⊢
      rw [List.filter_eq_nil_iff] at h ⊢
      intro a ha
      exact h a (List.mem_of_mem_filter ha)
    have hself : (L.filter relaxedKeep).filter relaxedKeep = L.filter relaxedKeep := by
      apply List.filter_eq_self.mpr
      intro a ha
      exact (List.mem_filter.mp ha).2
    rw [hR]
    unfold filter_by_quality
    rw [if_neg (by simpa using hsub), hself]
  · have hP : filter_by_quality L c = primaryTier L c := by
      unfold filter_by_quality
      rw [if_pos (by simpa using h)]
    have hself : primaryTier (primaryTier L c) c = primaryTier L c := by
      conv_lhs => unfold primaryTier
      apply List.filter_eq_self.mpr
      intro a ha
      unfold primaryTier at ha
      exact (List.mem_filter.mp ha).2
    rw [hP]
    unfold filter_by_quality
    rw [hself, if_pos (by simpa using h)]

/-! ### C6 : the poster validator -/

/-- C6 counterexample: the input "abc123.jpg" does not begin with "/" yet the
validator returns a full URL rather than the empty string — the code
prepends "/" instead of rejecting. -/
theorem C6_counterexample :
    isPrefixL ['/'] "abc123.jpg".toList = false ∧
    validate_and_build_poster_url "abc123.jpg" =
      "https://image.tmdb.org/t/p/w500/abc123.jpg" := by
  constructor
  · decide
  · decide

/-- C6 (amended): the validator normalizes instead of rejecting — an input
that does not begin with "/" has "/" prepended and can still yield a valid
URL ("abc123.jpg" does); the spec's four concrete vectors behave as stated:
"/abc123.jpg" gives the full TMDb URL, while the URL-shaped, script-bearing
and empty inputs give the empty string. -/
theorem C6_amended_poster_vectors :
    validate_and_build_poster_url "/abc123.jpg" =
      "https://image.tmdb.org/t/p/w500/abc123.jpg" ∧
    validate_and_build_poster_url "abc123.jpg" =
      "https://image.tmdb.org/t/p/w500/abc123.jpg" ∧
    validate_and_build_poster_url "http://evil.com/x.jpg" = "" ∧
    validate_and_build_poster_url "/abc<script>.jpg" = "" ∧
    validate_and_build_poster_url "" = "" := by
  refine ⟨by decide, by decide, by decide, by decide, by decide⟩

/-! ### C7 : cache capacity and eviction -/

/-- C7: inserting a new id into a cache holding exactly 100 entries (the
default capacity) evicts exactly the oldest-inserted entry — the state
becomes the old tail plus the new entry at the end — leaving exactly 100
entries; and a set_cached_movie call never takes a cache at or below
capacity above it. -/
theorem C7_cache_eviction :
    (∀ (c : CacheState) (k : Int) (v : MovieOut),
        c.length = MAX_CACHE_SIZE → k ∉ cacheKeys c →
        set_cached_movie c k v = c.tail ++ [(k, v)] ∧
          (set_cached_movie c k v).length = MAX_CACHE_SIZE) ∧
    (∀ (c : CacheState) (k : Int) (v : MovieOut),
        c.length ≤ MAX_CACHE_SIZE → (set_cached_movie c k v).length ≤ MAX_CACHE_SIZE) := by
  constructor
  · intro c k v hlen hk
    have hany : c.any (fun p => p.1 == k) = false := by
      rw [List.any_eq_false]
      intro p hp
      simp only [beq_iff_eq]
      intro hpk
      exact hk (hpk ▸ List.mem_map_of_mem _ hp)
    have hins : dictSet c k v = c ++ [(k, v)] := by
      unfold dictSet
      rw [hany]
      simp
    match c, hlen with
    | p0 :: t, hlen =>
      have hlt : t.length = 99 := by
        simp only [List.length_cons, MAX_CACHE_SIZE] at hlen
        omega
      unfold set_cached_movie
      rw [hins]
      rw [if_pos (by simp [MAX_CACHE_SIZE, hlt])]
      simp only [List.cons_append, List.eraseP_cons, beq_self_eq_true, cond_true]
      exact ⟨rfl, by simp [hlt, MAX_CACHE_SIZE]⟩
  · intro c k v hle
    have h100 : MAX_CACHE_SIZE = 100 := rfl
    rw [h100] at hle
    unfold set_cached_movie
    rw [h100]
    by_cases hany : c.any (fun p => p.1 == k) = true
    · have hins : dictSet c k v = c.map (fun p => if p.1 == k then (k, v) else p) := by
        unfold dictSet
        rw [hany]
        simp
      rw [hins, if_neg (by rw [List.length_map]; omega)]
      rw [List.length_map]
      exact hle
    · have hins : dictSet c k v = c ++ [(k, v)] := by
        unfold dictSet
        rw [Bool.not_eq_true] at hany
        rw [hany]
        simp
      rw [hins]
      cases c with
      | nil =>
        rw [if_neg (by simp)]
        simp
      | cons p0 t =>
        simp only [List.length_cons] at hle
        by_cases hlt : 100 < ((p0 :: t) ++ [(k, v)]).length
        · rw [if_pos hlt]
          simp only [List.cons_append, List.eraseP_cons, beq_self_eq_true, cond_true]
          simp only [List.length_append, List.length_cons, List.length_nil]
          omega
        · rw [if_neg hlt]
          simp only [List.length_append, List.length_cons, List.length_nil] at hlt ⊢
          omega

/-- C7 witness: a concrete 100-entry cache; inserting id 100 leaves exactly
100 entries with the oldest entry gone. -/
theorem C7_witness :
    set_cached_movie cacheW 100 movieDummy = cacheW.tail ++ [(100, movieDummy)] ∧
    (set_cached_movie cacheW 100 movieDummy).length = MAX_CACHE_SIZE :=
  C7_cache_eviction.1 cacheW 100 movieDummy (by decide) (by decide)

/-! ### C2 : fallthrough after an empty person-credits strategy -/

/-- C2 counterexample: the person query "films with Statham" is classified as
an actor query, the actor strategy is attempted (name extracted, person
resolved) and yields nothing, and the search endpoint would return a usable
candidate — yet the keyword title-search fallback is never consulted (the
search stage is gated on the actor strategy never having been attempted) and
the run returns no result. -/
theorem C2_counterexample :
    is_actor_query "films with Statham" = true ∧
    envC2.searchMovie (cleanQueryOf "films with Statham" false) ≠ [] ∧
    (fast_movie_search envC2 "films with Statham" "u" []).2.actorAttempted = true ∧
    (fast_movie_search envC2 "films with Statham" "u" []).2.fromActorSearch = false ∧
    (fast_movie_search envC2 "films with Statham" "u" []).2.searchCalled = false ∧
    (fast_movie_search envC2 "films with Statham" "u" []).1 = none := by
  refine ⟨by decide, by decide, by decide, by decide, by decide, by decide⟩

/-- C2 (amended): for every query classified as a person query whose actor
strategy produces no usable result, fast_movie_search proceeds to genre
discovery — the discover call is issued exactly when a genre keyword matches
the query and the query is not a holiday query — but never to the keyword
title-search fallback: that fallback is skipped whenever the actor strategy
was attempted.  Yielding nothing from the preferred strategy is not an
error, only a cause to continue to the genre stage. -/
theorem C2_amended_fallthrough (env : FEnv) (q u : String) (ex : List Int)
    (h1 : is_actor_query q = true)
    (h2 : (fast_movie_search env q u ex).2.fromActorSearch = false) :
    (fast_movie_search env q u ex).2.searchCalled = false ∧
    ((fast_movie_search env q u ex).2.discoverCalled = true ↔
      (foundGenresOf (pyLower q) ≠ [] ∧ isChristmasB q = false)) := by
  have hatt : (actorStage env q (excludedSetOf ex)).2.1 = true :=
    (actorStage_spec env q (excludedSetOf ex)).2 h1
  have hfa : (actorStage env q (excludedSetOf ex)).2.2 = false := h2
  have hr0 : (actorStage env q (excludedSetOf ex)).1 = [] :=
    (actorStage_spec env q (excludedSetOf ex)).1 hfa
  constructor
  · show (searchStage env q (isChristmasB q) (actorStage env q (excludedSetOf ex)).2.1
      (genreStage env (pyLower q) (isChristmasB q)
        (actorStage env q (excludedSetOf ex)).1 ex).1).2.1 = false
    exact searchStage_not_called env q (isChristmasB q) _ hatt
  · show (genreStage env (pyLower q) (isChristmasB q)
      (actorStage env q (excludedSetOf ex)).1 ex).2 = true ↔ _
    rw [genreStage_called]
    simp [hr0]

/-- C2 witness: a concrete actor query with empty credits instantiating the
amended theorem — search is skipped even though its endpoint has results. -/
theorem C2_witness :
    (fast_movie_search envC2 "films with Statham" "u" []).2.searchCalled = false :=
  (C2_amended_fallthrough envC2 "films with Statham" "u" [] (by decide) (by decide)).1

/-! ### C8 : holiday queries skip discovery and force the search term -/

/-- C8: for every holiday query (a query containing christmas, xmas or
holiday), the genre-discovery endpoint is never called — even though all
three holiday keywords map to genre id 10751 in the genre table — and if the
run reaches the keyword title-search fallback, the search term is the fixed
string "christmas" regardless of the request text. -/
theorem C8_holiday_search (env : FEnv) (q u : String) (ex : List Int)
    (hx : isChristmasB q = true) :
    (fast_movie_search env q u ex).2.discoverCalled = false ∧
    ((fast_movie_search env q u ex).2.searchCalled = true →
      (fast_movie_search env q u ex).2.searchTerm = some "christmas") ∧
    ("christmas", (10751 : Int)) ∈ GENRE_MAP ∧ ("xmas", (10751 : Int)) ∈ GENRE_MAP ∧
    ("holiday", (10751 : Int)) ∈ GENRE_MAP := by
  refine ⟨?_, ?_, by decide, by decide, by decide⟩
  · show (genreStage env (pyLower q) (isChristmasB q)
      (actorStage env q (excludedSetOf ex)).1 ex).2 = false
    exact genreStage_holiday env (pyLower q) _ ex hx
  · intro hs
    have hterm := searchStage_term env q (isChristmasB q)
      (actorStage env q (excludedSetOf ex)).2.1
      (genreStage env (pyLower q) (isChristmasB q)
        (actorStage env q (excludedSetOf ex)).1 ex).1 hs
    show (searchStage env q (isChristmasB q) (actorStage env q (excludedSetOf ex)).2.1
      (genreStage env (pyLower q) (isChristmasB q)
        (actorStage env q (excludedSetOf ex)).1 ex).1).2.2 = some "christmas"
    rw [hterm]
    unfold cleanQueryOf
    rw [if_pos hx]

/-- C8 witness: the spec's scenario query "christmas movie" with an
otherwise empty environment — discovery is skipped and the fallback term is
"christmas". -/
theorem C8_witness :
    (fast_movie_search emptyFEnv "christmas movie" "u" []).2.discoverCalled = false ∧
    (fast_movie_search emptyFEnv "christmas movie" "u" []).2.searchTerm =
      some "christmas" :=
  ⟨(C8_holiday_search emptyFEnv "christmas movie" "u" [] (by decide)).1,
   (C8_holiday_search emptyFEnv "christmas movie" "u" [] (by decide)).2.1 (by decide)⟩

/-! ### C5 : exclusion round-trip -/

/-- C5 counterexample: the id 0 is in the excluded list, yet the actor-queue
path returns a movie with id 0 — falsy ids are dropped when the exclusion
set is built, so a credit with id 0 is never excluded. -/
theorem C5_counterexample :
    (0 : Int) ∈ [(0 : Int)] ∧
    ((fast_movie_search envC5 "films with Statham" "u" [0]).1.map
      (fun o => o.movies.any (fun m => m.id == 0))) = some true := by
  refine ⟨by decide, by decide⟩

/-- C5 (amended): for every query, user and NONZERO integer id i, if i is in
the excluded_ids list passed to fast_movie_search then no movie with id i
appears in the returned "movies" list (zero is dropped from the exclusion
set by the `if id` filter); the cache-read oracle is assumed to store each
record under its own id, which the only cache writer guarantees
(src/movie_search.py lines 418-429). -/
theorem C5_amended_exclusion_roundtrip (env : FEnv) (q u : String) (ex : List Int)
    (i : Int) (out : SearchOut)
    (hc : ∀ k m, env.cachedMovie k = some m → m.id = k)
    (hi : i ≠ 0) (hmem : i ∈ ex)
    (h : (fast_movie_search env q u ex).1 = some out) :
    ∀ m ∈ out.movies, m.id ≠ i := by
  have hiset : i ∈ excludedSetOf ex := by
    unfold excludedSetOf
    rw [List.mem_filter]
    exact ⟨hmem, by simp [hi]⟩
  have h' : (fastResultCore env q u (excludedSetOf ex) (isChristmasB q)
      (actorStage env q (excludedSetOf ex)).2.2
      (searchStage env q (isChristmasB q) (actorStage env q (excludedSetOf ex)).2.1
        (genreStage env (pyLower q) (isChristmasB q)
          (actorStage env q (excludedSetOf ex)).1 ex).1).1).1 = some out := h
  exact fastResultCore_excluded hc hiset h'

/-- C5 witness: a discover-path run with 99 excluded returns one movie whose
id is not 99. -/
theorem C5_witness : mdW5.id ≠ 99 :=
  C5_amended_exclusion_roundtrip envC5w "horror night" "u" [99] 99 outW5
    (fun _ _ h => Option.noConfusion h) (by decide) (by decide) (by decide)
    mdW5 (by decide)

/-! ### C10 : shape of a non-None result -/

/-- C10: whenever fast_movie_search returns a result, its "movies" list is
non-empty with at most 10 entries; a cache hit yields exactly one entry, and
any non-actor retrieval yields exactly one entry (only the actor-credits
path builds the head plus at most nine follow-up queue entries). -/
theorem C10_result_shape (env : FEnv) (q u : String) (ex : List Int) (out : SearchOut)
    (h : (fast_movie_search env q u ex).1 = some out) :
    1 ≤ out.movies.length ∧ out.movies.length ≤ 10 ∧
    ((fast_movie_search env q u ex).2.cacheHit = true → out.movies.length = 1) ∧
    ((fast_movie_search env q u ex).2.fromActorSearch = false → out.movies.length = 1) := by
  have h' : (fastResultCore env q u (excludedSetOf ex) (isChristmasB q)
      (actorStage env q (excludedSetOf ex)).2.2
      (searchStage env q (isChristmasB q) (actorStage env q (excludedSetOf ex)).2.1
        (genreStage env (pyLower q) (isChristmasB q)
          (actorStage env q (excludedSetOf ex)).1 ex).1).1).1 = some out := h
  obtain ⟨hb, hhit, hfa⟩ := fastResultCore_shape h'
  exact ⟨hb.1, hb.2, fun hc => hhit hc, fun hf => hfa hf⟩

/-- C10 witness: a concrete discover-path run returning exactly one movie. -/
theorem C10_witness :
    1 ≤ outW10.movies.length ∧ outW10.movies.length ≤ 10 :=
  ⟨(C10_result_shape envW10 "horror night" "u" [] outW10 (by decide)).1,
   (C10_result_shape envW10 "horror night" "u" [] outW10 (by decide)).2.1⟩

/-! ### C3 : queue versus excluded-set invariant -/

/-- C3 counterexample: after a message transition that offers a movie (an
actor query whose search returns two candidates), the offered head remains
in movie_queue while its id has just been appended to suggested_movies — the
claimed invariant is violated immediately after the transition. -/
theorem C3_counterexample :
    ((handle_message henvC3 session0 "films with Statham").1.movieQueue.any
      (fun m =>
        (handle_message henvC3 session0 "films with Statham").1.suggestedMovies.contains
          m.id)) = true := by
  decide

/-- C3 (amended): the invariant as stated does not hold — every offering
transition stores the offered candidate in movie_queue while adding its id
to suggested_movies (the button callback needs to find the current movie in
the queue by id).  What the code enforces instead is disjointness at
consumption: when a reject transition draws the next candidate from the
queue (no usable prefetch), the queue is first filtered against
suggested_movies, so the candidate offered from the queue — and every entry
of the queue stored by that transition — has an id outside the excluded
set. -/
theorem C3_amended_queue_invariant (env : HEnv) (s : Session)
    (data action midStr : String)
    (hdata : pySplitOnce data '_' = some (action, midStr))
    (ha : action = "dislike" ∨ action = "watched")
    (hfind : (s.movieQueue.find? (fun m => toString m.id == midStr)).isSome = true)
    (hpre : s.prefetched = none)
    (hfq : (rejectBase s action midStr).movieQueue.filter
        (fun m => ! (rejectBase s action midStr).suggestedMovies.contains m.id) ≠ []) :
    (∀ m ∈ (handle_button_callback env s data).1.movieQueue,
        (handle_button_callback env s data).1.suggestedMovies.contains m.id = false) ∧
    (handle_button_callback env s data).2 =
      ((rejectBase s action midStr).movieQueue.filter
        (fun m => ! (rejectBase s action midStr).suggestedMovies.contains m.id)).head? := by
  unfold handle_button_callback
  rw [hdata]
  dsimp only
  obtain ⟨cm, hcm⟩ := Option.isSome_iff_exists.mp hfind
  rw [hcm]
  dsimp only
  rw [if_pos ha]
  unfold nextAfterReject
  rw [rejectBase_prefetched, hpre]
  unfold queueOrSearch
  cases hfqe : (rejectBase s action midStr).movieQueue.filter
      (fun m => ! (rejectBase s action midStr).suggestedMovies.contains m.id) with
  | nil => exact absurd hfqe hfq
  | cons f t =>
    dsimp only
    constructor
    · intro m hm
      have hmf : m ∈ (rejectBase s action midStr).movieQueue.filter
          (fun m => ! (rejectBase s action midStr).suggestedMovies.contains m.id) := by
        rw [hfqe]
        exact hm
      have := (List.mem_filter.mp hmf).2
      simpa using this
    · rfl

/-- C3 witness: a concrete reject with no prefetch and one non-excluded
queue entry — the candidate offered from the queue is not in the excluded
set. -/
theorem C3_witness :
    (handle_button_callback henvTrivial sW3 "dislike_1").2 = some mQueue2 ∧
    (handle_button_callback henvTrivial sW3 "dislike_1").1.suggestedMovies.contains
      mQueue2.id = false := by
  have h := C3_amended_queue_invariant henvTrivial sW3 "dislike_1" "dislike" "1"
    (by decide) (Or.inl rfl) (by decide) (by decide) (by decide)
  refine ⟨?_, ?_⟩
  · rw [h.2]
    decide
  · exact h.1 mQueue2 (by decide)

/-! ### C9 : reject with a standing matching prefetched candidate -/

/-- C9: on a reject (dislike or watched) action whose current movie is found
in the queue, if the prefetch slot holds a candidate whose recorded prompt
matches the session's active prompt case- and whitespace-insensitively,
whose id is truthy (the prefetch writer only stores candidates with truthy
ids, handlers lines 148-163) and not in the excluded set as updated by this
reject, then the candidate offered next is exactly the prefetched one and
the prefetch slot is cleared in the same transition, before the offer. -/
theorem C9_prefetch_offer (env : HEnv) (s : Session) (data action midStr : String)
    (pm : MovieOut) (pq : String)
    (hdata : pySplitOnce data '_' = some (action, midStr))
    (ha : action = "dislike" ∨ action = "watched")
    (hfind : (s.movieQueue.find? (fun m => toString m.id == midStr)).isSome = true)
    (hpre : s.prefetched = some (pm, pq))
    (hmatch : pyStrip (pyLower pq) = pyStrip (pyLower s.originalPrompt))
    (hid : pm.id ≠ 0)
    (hnot : (rejectBase s action midStr).suggestedMovies.contains pm.id = false) :
    (handle_button_callback env s data).2 = some pm ∧
    (handle_button_callback env s data).1.prefetched = none := by
  unfold handle_button_callback
  rw [hdata]
  dsimp only
  obtain ⟨cm, hcm⟩ := Option.isSome_iff_exists.mp hfind
  rw [hcm]
  dsimp only
  rw [if_pos ha]
  unfold nextAfterReject
  rw [rejectBase_prefetched, hpre]
  dsimp only
  rw [if_pos (by rw [rejectBase_originalPrompt]; exact hmatch)]
  rw [if_pos ⟨hid, by rw [Bool.not_eq_true']; exact hnot⟩]
  exact ⟨rfl, rfl⟩

/-- C9 witness: a concrete reject with a matching-prompt prefetched
candidate — the prefetched movie is offered and the slot is emptied. -/
theorem C9_witness :
    (handle_button_callback henvTrivial sW9 "dislike_1").2 = some pmW9 ∧
    (handle_button_callback henvTrivial sW9 "dislike_1").1.prefetched = none :=
  C9_prefetch_offer henvTrivial sW9 "dislike_1" "dislike" "1" pmW9 "q"
    (by decide) (Or.inl rfl) (by decide) (by decide) (by decide) (by decide) (by decide)

end FilmBot
